import Mathlib

/-!
Verification of the staged-training control core of `models/progan_model.py`
(progressive-growing GAN model).

The stateful Python code is embedded shallowly: the model's inner counters
(`self.step`, `self.iter`, `self.alpha`) become an explicit state record,
methods become pure functions on that state, float scalars become `ℚ`
(float literals such as `0.001` are read as the exact rationals they denote
in the source text, and the float computations the claims depend on stay
far from any rounding boundary for all realistic inputs, see the doc
comments), numpy integer truncation of nonnegative values becomes `Nat`
floor division, the fallible construction checks become `Except`, and the
guarded backpropagation / optimizer step is modelled over abstract
gradient values with a non-finite-aware scalar type.
-/

namespace ProGan

/-- Inner counters of `ProGanModel` (`self.step`, `self.iter`, `self.alpha`,
set up in `__init__` lines 106-117). `alpha` is the fade-in blend
coefficient, a float in the source, embedded as `ℚ`. -/
structure SchedState where
  step : ℕ
  iter : ℕ
  alpha : ℚ
  deriving Repr, DecidableEq

/-- Initial counter values from `__init__`: `self.step = 0`, `self.iter = 0`,
`self.alpha = 0.`. -/
def initState : SchedState := ⟨0, 0, 0⟩

/-- Python's two-argument `min` on rationals, written as a plain
conditional so that concrete states evaluate by kernel reduction. -/
def pymin (a b : ℚ) : ℚ := if b ≤ a then b else a

/-- `create_epochs_schedule` (lines 230-239). `basic_weights` is the
hard-coded fibonacci-like float array (all entries small integers) or the
all-ones array; it is truncated to `max_steps + 1` entries, scaled by
`total_steps / sum`, and truncated to integers with `astype(np.int)`.
All values are nonnegative, so `astype` truncation is floor; for every
budget below about 2^53 / 55 the float quotient `total_steps * w / sum`
has its floor equal to the exact rational floor (the exact value has
denominator at most 145, so a non-integer value is at least 1/145 away
from any integer, far above the float error), embedded as `Nat` floor
division. -/
def create_epochs_schedule (steps_schedule_type : String) (max_steps total_steps : ℕ) :
    List ℕ :=
  let basic_weights : List ℕ :=
    if steps_schedule_type == "fibonacci" then
      [3, 3, 3, 5, 8, 13, 21, 34, 55]
    else
      [1, 1, 1, 1, 1, 1, 1, 1, 1]
  let truncated := basic_weights.take (max_steps + 1)
  truncated.map (fun w => total_steps * w / truncated.sum)

/-- `update_inners_counters` (lines 241-257), the `advance` operation:
increment `self.iter`, set `self.alpha = min(1, (2. / schedule[step]) * iter)`,
and when the counter exceeds the current stage's allocation reset the
counter and blend and move to the next step, clamping at `max_steps` with
`alpha = 1`. Python would raise `IndexError` for `step ≥ len(schedule)`;
the embedding reads the entry with `getD` (the theorems below keep `step`
in range whenever the entry's value matters). -/
def update_inners_counters (schedule : List ℕ) (max_steps : ℕ)
    (s : SchedState) : SchedState :=
  let iter := s.iter + 1
  let alloc := schedule.getD s.step 0
  let alpha : ℚ := pymin 1 ((2 / (alloc : ℚ)) * iter)
  if iter > alloc then
    if s.step + 1 > max_steps then
      ⟨max_steps, 0, 1⟩
    else
      ⟨s.step + 1, 0, 0⟩
  else
    ⟨s.step, iter, alpha⟩

/-- `update_learning_rate` (lines 266-268): the base-class learning-rate
scheduler step does not touch the inner counters, so on the counter state
it is exactly `update_inners_counters`. -/
def update_learning_rate (schedule : List ℕ) (max_steps : ℕ)
    (s : SchedState) : SchedState :=
  update_inners_counters schedule max_steps s

/-! ### Construction-time checks (`__init__`) -/

/-- The `AssertionError` raised by one of the four construction-time
`assert` statements in `__init__` (lines 60-61 and 124-125). -/
inductive InitError where
  | sizeMismatch
  | betaNonzero
  | budgetTooSmall
  | cropNotDivisible
  deriving Repr, DecidableEq

/-- The configuration fields of `opt` that the construction checks and the
schedule depend on. `beta1` is a float, embedded as `ℚ`. -/
structure ProGanOpt where
  isTrain : Bool
  crop_size : ℕ
  beta1 : ℚ
  max_steps : ℕ
  n_epochs : ℕ
  n_epochs_decay : ℕ
  steps_schedule : String

/-- `self.total_steps = opt.n_epochs + opt.n_epochs_decay + 1` (line 102). -/
def ProGanOpt.total_steps (o : ProGanOpt) : ℕ := o.n_epochs + o.n_epochs_decay + 1

/-- The construction-time checks of `__init__` in source order: the two
asserts of lines 59-61 (training mode only), then the schedule build of
line 118, then the two asserts of lines 123-125 (training mode only).
Returns the built epoch schedule when every check passes. -/
def init_checks (o : ProGanOpt) : Except InitError (List ℕ) :=
  if o.isTrain ∧ o.crop_size ≠ 4 * 2 ^ o.max_steps then
    .error .sizeMismatch
  else if o.isTrain ∧ o.beta1 ≠ 0 then
    .error .betaNonzero
  else
    let schedule := create_epochs_schedule o.steps_schedule o.max_steps o.total_steps
    if o.isTrain ∧ ¬ 12 < o.total_steps then
      .error .budgetTooSmall
    else if o.isTrain ∧ ¬ o.crop_size % 2 ^ o.max_steps = 0 then
      .error .cropNotDivisible
    else
      .ok schedule

/-! ### Guarded backpropagation and the optimizer step -/

/-- A scalar loss tensor's value: a float that may be non-finite (`inf`,
`-inf` or `nan` can arise from the criterion on outlier batches). Finite
values are embedded as `ℚ`. -/
inductive FloatScalar where
  | val (q : ℚ)
  | posInf
  | negInf
  | nan
  deriving Repr, DecidableEq

/-- `torch.isinf` on the scalar loss. -/
def torch_isinf : FloatScalar → Bool
  | .posInf => true
  | .negInf => true
  | _ => false

/-- `torch.isnan` on the scalar loss. -/
def torch_isnan : FloatScalar → Bool
  | .nan => true
  | _ => false

/-- `torch.mean(torch.abs(loss)) > 100` for the scalar loss: the mean of the
absolute value of a scalar is its absolute value; `|±inf| > 100` is true;
every comparison against `nan` is false in IEEE semantics. -/
def absmean_gt_100 : FloatScalar → Bool
  | .val q => decide (100 < |q|)
  | .posInf => true
  | .negInf => true
  | .nan => false

/-- The numerical-stability guard of `backward_D` (line 191) and
`backward_G` (line 209): `backward()` is skipped exactly when
`torch.isinf(loss) or torch.isnan(loss) or torch.mean(torch.abs(loss)) > 100`. -/
def skip_guard (l : FloatScalar) : Bool :=
  torch_isinf l || torch_isnan l || absmean_gt_100 l

/-- One trainable parameter with its Adam optimizer state (`exp_avg` is the
first-moment buffer, `exp_avg_sq` the second-moment buffer). -/
structure AdamParam where
  p : ℚ
  exp_avg : ℚ
  exp_avg_sq : ℚ
  deriving Repr, DecidableEq

/-- One Adam update of a single parameter from its current gradient `g`
(`torch.optim.Adam.step`, as configured on lines 90-91 with
`betas=(opt.beta1, 0.99)`): the moment buffers are updated to
`m = beta1 * m + (1-beta1) * g` and `v = beta2 * v + (1-beta2) * g^2`, and
the parameter moves by `-lr * m_hat / (sqrt(v_hat) + eps)`. The factors
`bc1` (bias correction of the first moment) and `rsqrt` (the value
`1 / (sqrt(v_hat) + eps)`, irrational in general) are abstract positive
scalars here; the claims proved below hold for every value of both. -/
def adam_param_step (beta1 beta2 lr bc1 rsqrt g : ℚ) (s : AdamParam) : AdamParam :=
  let m := beta1 * s.exp_avg + (1 - beta1) * g
  let v := beta2 * s.exp_avg_sq + (1 - beta2) * g ^ 2
  ⟨s.p - lr * (m * bc1) * rsqrt, m, v⟩

/-- The observable outcome of one sub-loss update inside
`optimize_parameters` for a single parameter of the sub-loss's network. -/
structure SubLossTrace where
  param : AdamParam
  grad : ℚ
  reported : FloatScalar
  backward_ran : Bool
  opt_step_ran : Bool
  deriving Repr, DecidableEq

/-- One guarded sub-loss update exactly as `optimize_parameters`
(lines 216-228) performs it for either sub-loss, restricted to one
parameter: `optimizer.zero_grad()` clears the gradient, `backward_D` /
`backward_G` runs `loss.backward()` only when the guard of line 191 /
line 209 passes (`lossGrad` is the gradient that `backward` would deposit
on this parameter), the loss value itself is stored on the model for
reporting unconditionally (lines 167-189 / 204-207), and
`optimizer.step()` (line 222 / line 227) is invoked unconditionally. -/
def sub_loss_update (loss : FloatScalar) (lossGrad beta1 beta2 lr bc1 rsqrt : ℚ)
    (s : AdamParam) : SubLossTrace :=
  let g0 : ℚ := 0
  let g := if skip_guard loss then g0 else g0 + lossGrad
  ⟨adam_param_step beta1 beta2 lr bc1 rsqrt g s, g, loss, ! skip_guard loss, true⟩

/-! ### The wgangp discriminator loss -/

/-- `torch.mean` of a tensor flattened to a list of scalars. -/
def qmean (l : List ℚ) : ℚ := l.sum / (l.length : ℚ)

/-- The `wgangp` discriminator loss assembled by `backward_D`
(lines 166-189): `loss_D_fake = criterion(pred_fake, False)` and
`loss_D_real = criterion(pred_real, True)` are abstract criterion values
`critFake`, `critReal` (the criterion `networks.GANLoss` is an external
collaborator); the drift penalty `0.001 * (pred_real ** 2).mean()` is
added onto `loss_D_real` (line 171) before the `* 0.5` of line 173; the
gradient penalty `10 * (((grad_norm_b) - 1) ** 2).mean()` of lines
184-189 is added afterwards, where `grad_norms` are the per-batch-element
2-norms of the autograd gradient of the discriminator's output with
respect to `x_hat` (the norm involves a square root, so the norms enter
as abstract values). -/
def backward_D_loss_wgangp (critFake critReal : ℚ) (pred_real grad_norms : List ℚ) : ℚ :=
  let loss_D_fake := critFake
  let loss_D_real := critReal + (1 / 1000) * qmean (pred_real.map (fun x => x ^ 2))
  let loss_D := (loss_D_fake + loss_D_real) * (1 / 2)
  let grad_penalty := qmean (grad_norms.map (fun g => (g - 1) ^ 2))
  loss_D + 10 * grad_penalty

/-- One component of the interpolated sample of line 181:
`x_hat = eps * real_B.data + (1 - eps) * fake_B.detach().data`, with `eps`
the per-batch-element draw of `torch.rand` (line 180) broadcast over the
component's channel and spatial position. -/
def x_hat (eps real fake : ℚ) : ℚ := eps * real + (1 - eps) * fake

/-- The spec's reading of the same loss (§4.4): the real and fake criterion
terms scaled by 0.5, the drift penalty added before (hence subject to) the
0.5 scaling, and the gradient penalty `10 * mean((‖∇x̂‖₂ - 1)^2)` added
unscaled. Stated separately so the source assembly above can be proved
equal to it. -/
def spec_D_loss_wgangp (critFake critReal : ℚ) (pred_real grad_norms : List ℚ) : ℚ :=
  (1 / 2) * critFake
    + (1 / 2) * (critReal + (1 / 1000) * qmean (pred_real.map (fun x => x ^ 2)))
    + 10 * qmean (grad_norms.map (fun g => (g - 1) ^ 2))

/-! ### `forward`, `set_input` and the resolution of the visuals -/

/-- The `step` argument `forward` (line 148) passes to the generator:
the internal counter in training mode, `self.max_steps` in eval mode. -/
def forward_step (isTrain : Bool) (max_steps : ℕ) (s : SchedState) : ℕ :=
  if isTrain then s.step else max_steps

/-- The `alpha` argument `forward` (line 149) passes to the generator:
the internal counter in training mode, `1` in eval mode. -/
def forward_alpha (isTrain : Bool) (s : SchedState) : ℚ :=
  if isTrain then s.alpha else 1

/-- Spatial side length of `__progressive_downsampling`'s result
(lines 270-299) for a square input of side `size`: `AvgPool2d(k)` has
output side `⌊size / k⌋`, and the blended result of line 296 has the side
of `ds_real_samples`, namely `size / down_sample_factor` with
`down_sample_factor = 2 ** (max_steps - depth)` (line 284); `set_input`
(line 141) applies this with `depth = self.step` and the fader
`self.alpha`, which do not affect the size. -/
def progressive_downsampling_side (max_steps size depth : ℕ) : ℕ :=
  size / 2 ^ (max_steps - depth)

/-- Modelled from the spec: the output resolution of the generator networks
(`networks.define_G`, whose implementation is not among the given sources).
Per §4.2 and §4.6, stage `s` works at the side `imageSize / 2^(maxStage - s)`
with `imageSize = 4 * 2^maxStage`, so `forward(latent, stage, blend)`
produces a sample of side `4 * 2^stage`. -/
def generator_sample_side (step : ℕ) : ℕ := 4 * 2 ^ step

end ProGan

namespace ProGan

/-! ### Helper lemmas -/

theorem pymin_eq_min (a b : ℚ) : pymin a b = min a b := by
  unfold pymin
  rcases le_or_lt b a with h | h
  · rw [if_pos h, min_eq_right h]
  · rw [if_neg (not_le.mpr h), min_eq_left h.le]

theorem update_step_le (schedule : List ℕ) (m : ℕ) (s : SchedState)
    (h : s.step ≤ m) : (update_inners_counters schedule m s).step ≤ m := by
  simp only [update_inners_counters]
  split_ifs <;> simp <;> omega

theorem update_step_ge (schedule : List ℕ) (m : ℕ) (s : SchedState)
    (h : s.step ≤ m) : s.step ≤ (update_inners_counters schedule m s).step := by
  simp only [update_inners_counters]
  split_ifs with h1 h2 <;> simp <;> omega

theorem iterate_step_le (schedule : List ℕ) (m : ℕ) (n : ℕ) :
    ((update_inners_counters schedule m)^[n] initState).step ≤ m := by
  induction n with
  | zero => simp [initState]
  | succ k ih =>
    rw [Function.iterate_succ_apply']
    exact update_step_le schedule m _ ih

/-! ### Claims -/

/-- C2: one `update_inners_counters` call from a state whose stage is in
`[0, max_steps]` and whose stage allocation is positive increments the
intra-stage counter and sets `alpha = min(1, 2 * counter / allocation[step])`;
when the incremented counter exceeds the allocation it instead resets the
counter to 0 and the blend to 0 and increments the stage, and when that
increment would exceed `max_steps` (i.e. the state was already at the
terminal stage) the stage is clamped to `max_steps` with the blend forced
to 1. -/
theorem C2_advance_spec (schedule : List ℕ) (m : ℕ) (s : SchedState)
    (hstep : s.step ≤ m) (halloc : 0 < schedule.getD s.step 0) :
    (s.iter + 1 ≤ schedule.getD s.step 0 →
      update_inners_counters schedule m s
        = ⟨s.step, s.iter + 1,
            min 1 (2 * ((s.iter : ℚ) + 1) / ((schedule.getD s.step 0 : ℕ) : ℚ))⟩)
    ∧ (schedule.getD s.step 0 < s.iter + 1 → s.step + 1 ≤ m →
      update_inners_counters schedule m s = ⟨s.step + 1, 0, 0⟩)
    ∧ (schedule.getD s.step 0 < s.iter + 1 → m < s.step + 1 →
      s.step = m ∧ update_inners_counters schedule m s = ⟨m, 0, 1⟩) := by
  refine ⟨fun h => ?_, fun h1 h2 => ?_, fun h1 h2 => ⟨by omega, ?_⟩⟩
  · simp only [update_inners_counters]
    rw [if_neg (by omega)]
    rw [pymin_eq_min]
    push_cast
    rw [div_mul_eq_mul_div]
  · simp only [update_inners_counters]
    rw [if_pos (by omega), if_neg (by omega)]
  · simp only [update_inners_counters]
    rw [if_pos (by omega), if_pos (by omega)]

/-- C2 witness: from the initial state with the uniform 20-epoch,
`max_steps = 2` schedule `[6, 6, 6]`, one call yields counter 1 and blend
`min(1, 2·1/6) = 1/3`. -/
theorem C2_advance_spec_witness :
    update_inners_counters [6, 6, 6] 2 ⟨0, 0, 0⟩ = ⟨0, 1, 1 / 3⟩ := by
  have h := (C2_advance_spec [6, 6, 6] 2 ⟨0, 0, 0⟩ (by decide) (by decide)).1 (by decide)
  rw [h]
  norm_num [min_def, List.getD]

/-- C3: after any single `update_inners_counters` call (hence after each
call of any sequence of calls, from any reachable state) the blend lies in
`[0, 1]`; whenever a call strictly increments the stage the blend right
after it is exactly 0; and the terminal-stage exception: when the state is
already at stage `max_steps` and its counter overflows, the stage stays at
`max_steps` and the blend is pinned to 1 instead. -/
theorem C3_blend_bounds (schedule : List ℕ) (m : ℕ) (s : SchedState) :
    (0 ≤ (update_inners_counters schedule m s).alpha
      ∧ (update_inners_counters schedule m s).alpha ≤ 1)
    ∧ (s.step < (update_inners_counters schedule m s).step →
        (update_inners_counters schedule m s).alpha = 0)
    ∧ (s.step = m → schedule.getD s.step 0 < s.iter + 1 →
        (update_inners_counters schedule m s).step = m
          ∧ (update_inners_counters schedule m s).alpha = 1) := by
  simp only [update_inners_counters]
  split_ifs with h1 h2
  · refine ⟨⟨by norm_num, by norm_num⟩, fun h => by simp at h; omega, fun _ _ => ⟨rfl, rfl⟩⟩
  · refine ⟨⟨by norm_num, by norm_num⟩, fun _ => rfl, fun he _ => absurd h2 (by omega)⟩
  · refine ⟨?_, fun h => by simp at h, fun _ ho => absurd ho (by omega)⟩
    rw [pymin_eq_min]
    constructor
    · apply le_min (by norm_num)
      positivity
    · exact min_le_left _ _

/-- C3 witness: with schedule `[2, 2]` and `max_steps = 1`, the state
`⟨0, 2, 1⟩` overflows its allocation, the stage increments to 1, and the
blend right after the call is exactly 0 (and in `[0, 1]`). -/
theorem C3_blend_bounds_witness :
    0 ≤ (update_inners_counters [2, 2] 1 ⟨0, 2, 1⟩).alpha
      ∧ (update_inners_counters [2, 2] 1 ⟨0, 2, 1⟩).alpha ≤ 1
      ∧ (update_inners_counters [2, 2] 1 ⟨0, 2, 1⟩).alpha = 0 := by
  have h := C3_blend_bounds [2, 2] 1 ⟨0, 2, 1⟩
  exact ⟨h.1.1, h.1.2, h.2.1 (by decide)⟩

/-- C5: over any sequence of `update_inners_counters` calls started from
the initial state, the stage index is non-decreasing from each call to the
next and never exceeds `max_steps`. -/
theorem C5_step_monotone (schedule : List ℕ) (m n : ℕ) :
    ((update_inners_counters schedule m)^[n] initState).step
        ≤ ((update_inners_counters schedule m)^[n + 1] initState).step
    ∧ ((update_inners_counters schedule m)^[n] initState).step ≤ m := by
  refine ⟨?_, iterate_step_le schedule m n⟩
  rw [Function.iterate_succ_apply']
  exact update_step_ge schedule m _ (iterate_step_le schedule m n)

/-- Summing the per-weight truncated quotients never exceeds the truncated
quotient of the summed numerators. -/
theorem sum_map_div_le (T S : ℕ) (l : List ℕ) :
    (l.map (fun w => T * w / S)).sum ≤ T * l.sum / S := by
  induction l with
  | nil => simp
  | cons a t ih =>
    simp only [List.map_cons, List.sum_cons, Nat.mul_add]
    calc T * a / S + (t.map (fun w => T * w / S)).sum
        ≤ T * a / S + T * t.sum / S := Nat.add_le_add_left ih _
      _ ≤ (T * a + T * t.sum) / S := Nat.add_div_le_add_div _ _ _

/-- Each truncated quotient loses less than one multiple of `S`. -/
theorem mul_sum_le_scaled (T S : ℕ) (hS : 0 < S) (l : List ℕ) :
    T * l.sum ≤ S * (l.map (fun w => T * w / S)).sum + l.length * (S - 1) := by
  induction l with
  | nil => simp
  | cons a t ih =>
    have ha : T * a ≤ S * (T * a / S) + (S - 1) := by
      have hdm := Nat.div_add_mod (T * a) S
      have hm : (T * a) % S < S := Nat.mod_lt _ hS
      omega
    simp only [List.map_cons, List.sum_cons, List.length_cons, Nat.mul_add]
    calc T * a + T * t.sum
        ≤ (S * (T * a / S) + (S - 1))
            + (S * (t.map (fun w => T * w / S)).sum + t.length * (S - 1)) :=
          Nat.add_le_add ha ih
      _ = S * (T * a / S) + S * (t.map (fun w => T * w / S)).sum
            + (t.length + 1) * (S - 1) := by ring

/-- Lower bound: the total budget exceeds the truncated allocations by less
than the number of schedule entries. -/
theorem le_sum_map_div_add (T S : ℕ) (hS : 0 < S) (l : List ℕ) (hsum : l.sum = S) :
    T ≤ (l.map (fun w => T * w / S)).sum + l.length := by
  have h1 := mul_sum_le_scaled T S hS l
  rw [hsum] at h1
  calc T = T * S / S := (Nat.mul_div_cancel T hS).symm
    _ ≤ (S * (l.map (fun w => T * w / S)).sum + l.length * (S - 1)) / S :=
        Nat.div_le_div_right h1
    _ = (l.map (fun w => T * w / S)).sum + l.length * (S - 1) / S :=
        Nat.mul_add_div hS _ _
    _ ≤ (l.map (fun w => T * w / S)).sum + l.length :=
        Nat.add_le_add_left
          (le_of_le_of_eq
            (Nat.div_le_div_right (Nat.mul_le_mul_left l.length (by omega)))
            (Nat.mul_div_cancel l.length hS)) _

/-- The two schedule-sum bounds for a truncation of any weight list with a
positive head. -/
theorem take_schedule_bounds (a : ℕ) (t : List ℕ) (ha : 0 < a) (m T : ℕ) :
    (((a :: t).take (m + 1)).map
        (fun w => T * w / ((a :: t).take (m + 1)).sum)).sum ≤ T
    ∧ T ≤ (((a :: t).take (m + 1)).map
        (fun w => T * w / ((a :: t).take (m + 1)).sum)).sum + (m + 1) := by
  have htr : (a :: t).take (m + 1) = a :: t.take m := List.take_succ_cons
  have hS : 0 < ((a :: t).take (m + 1)).sum := by
    rw [htr]
    simp only [List.sum_cons]
    omega
  have hlen : ((a :: t).take (m + 1)).length ≤ m + 1 := by
    rw [List.length_take]
    exact min_le_left _ _
  constructor
  · calc (((a :: t).take (m + 1)).map
          (fun w => T * w / ((a :: t).take (m + 1)).sum)).sum
        ≤ T * ((a :: t).take (m + 1)).sum / ((a :: t).take (m + 1)).sum :=
          sum_map_div_le T _ _
      _ = T := Nat.mul_div_cancel T hS
  · have h := le_sum_map_div_add T ((a :: t).take (m + 1)).sum hS
      ((a :: t).take (m + 1)) rfl
    omega

/-- C6: for every weighting policy string, `max_steps` and total budget,
the integer-truncated schedule allocations sum to the budget within the
tolerance `±(max_steps + 1)` (in fact the sum never exceeds the budget and
falls short of it by at most `max_steps + 1`). -/
theorem C6_schedule_sum_tolerance (p : String) (m T : ℕ) :
    (create_epochs_schedule p m T).sum ≤ T
    ∧ T ≤ (create_epochs_schedule p m T).sum + (m + 1) := by
  unfold create_epochs_schedule
  by_cases hb : (p == "fibonacci") = true
  · simp only [hb, if_true]
    exact take_schedule_bounds 3 [3, 3, 5, 8, 13, 21, 34, 55] (by norm_num) m T
  · simp only [eq_false_of_ne_true hb, if_false]
    exact take_schedule_bounds 1 [1, 1, 1, 1, 1, 1, 1, 1] (by norm_num) m T

/-- C4 counterexample: a training configuration that passes every
construction-time check (`crop_size = 256 = 4 * 2^6`, `beta1 = 0`,
`total_steps = 12 + 0 + 1 = 13 > 12`, divisibility) but whose
fibonacci-policy schedule `[0, 0, 0, 1, 1, 3, 4]` has zero entries
(`⌊13·3/56⌋ = 0`), so the claim that every accepted configuration yields
strictly positive allocations is false, and the blend computation
`2 / schedule[0]` performed by the first `update_inners_counters` call
divides by zero. -/
theorem C4_counterexample :
    init_checks ⟨true, 256, 0, 6, 12, 0, "fibonacci"⟩ = .ok [0, 0, 0, 1, 1, 3, 4]
    ∧ (create_epochs_schedule "fibonacci" 6 13).getD 0 1 = 0 := by
  constructor
  · norm_num [init_checks, ProGanOpt.total_steps]
    decide
  · decide

/-- C4 corrected: under the uniform (any non-`"fibonacci"`) weighting
policy, every entry of a schedule built from a total budget accepted by
the construction check of line 124 (`total_steps > 12`) is strictly
positive, so for that policy the blend division `2 / schedule[step]` in
`update_inners_counters` never divides by zero. (The original claim over
all policies is refuted by the fibonacci counterexample.) -/
theorem C4_uniform_schedule_pos (p : String) (m T : ℕ)
    (hp : (p == "fibonacci") = false) (hT : 12 < T) :
    ∀ x ∈ create_epochs_schedule p m T, 0 < x := by
  intro x hx
  unfold create_epochs_schedule at hx
  rw [hp] at hx
  simp only [Bool.false_eq_true, if_false] at hx
  obtain ⟨w, hw, rfl⟩ := List.mem_map.mp hx
  have hw1 : w = 1 := by
    have hmem := List.mem_of_mem_take hw
    simp at hmem
    omega
  subst hw1
  have hS9 : (([1, 1, 1, 1, 1, 1, 1, 1, 1] : List ℕ).take (m + 1)).sum ≤ 9 := by
    have := (([1, 1, 1, 1, 1, 1, 1, 1, 1] : List ℕ).take_sublist (m + 1)).sum_le_sum
      (by simp)
    simpa using this
  have hS0 : 0 < (([1, 1, 1, 1, 1, 1, 1, 1, 1] : List ℕ).take (m + 1)).sum := by
    rw [List.take_succ_cons]
    simp
  exact Nat.div_pos (by omega) hS0

/-- C4 witness: the uniform 20-epoch, `max_steps = 2` schedule has a
positive first entry. -/
theorem C4_uniform_schedule_pos_witness :
    0 < (create_epochs_schedule "linear" 2 20).getD 0 0 := by
  have h := C4_uniform_schedule_pos "linear" 2 20 rfl (by decide)
  exact h _ (by decide)

/-- C9: with `max_steps = 2`, a total budget of 20 epochs and the uniform
(`linear`) weighting (schedule `[6, 6, 6]`), twenty `update_learning_rate`
calls from the initial state end at stage 2 with blend 1 (stage 2 is
reached at call 14 and the blend saturates from call 17 on). -/
theorem C9_end_to_end :
    ((update_learning_rate (create_epochs_schedule "linear" 2 20) 2)^[20] initState).step = 2
    ∧ ((update_learning_rate (create_epochs_schedule "linear" 2 20) 2)^[20] initState).alpha
        = 1 := by
  have hs : create_epochs_schedule "linear" 2 20 = [6, 6, 6] := by decide
  have h : (update_learning_rate [6, 6, 6] 2)^[20] initState = ⟨2, 6, 1⟩ := by
    norm_num [update_learning_rate, Function.iterate_succ_apply, update_inners_counters,
      pymin, initState]
  rw [hs, h]
  exact ⟨rfl, rfl⟩

/-- C1 counterexample: with a `nan` discriminator (or generator) loss, the
guarded update skips `backward()` but still invokes the sub-loss's
`optimizer.step()` (`optimize_parameters` lines 222 and 227 run
unconditionally), so the claim that both backpropagation and the
optimizer step are skipped is false as stated. -/
theorem C1_counterexample :
    (sub_loss_update .nan 5 0 (99 / 100) (1 / 1000) 1 1 ⟨3, 0, 0⟩).opt_step_ran = true
    ∧ (sub_loss_update .nan 5 0 (99 / 100) (1 / 1000) 1 1 ⟨3, 0, 0⟩).backward_ran
        = false := by
  exact ⟨rfl, rfl⟩

/-- C1 corrected: for every training step whose sub-loss is non-finite or
has mean absolute value exceeding 100, the guarded update skips
backpropagation (the gradient stays at the zero `zero_grad()` left), the
loss value is still recorded for reporting, and no error is raised
(`sub_loss_update` is total); the sub-loss's `optimizer.step()` is still
invoked, but with the gradient zero and `beta1 = 0` (asserted at
construction, line 61) the Adam first moment vanishes and the parameter
is left unchanged, for every value of the remaining optimizer
hyperparameters and of the abstracted denominator and bias-correction
factors. -/
theorem C1_guard_skips_backward_only (loss : FloatScalar)
    (lossGrad beta2 lr bc1 rsqrt : ℚ) (s : AdamParam)
    (hguard : skip_guard loss = true) :
    (sub_loss_update loss lossGrad 0 beta2 lr bc1 rsqrt s).param.p = s.p
    ∧ (sub_loss_update loss lossGrad 0 beta2 lr bc1 rsqrt s).grad = 0
    ∧ (sub_loss_update loss lossGrad 0 beta2 lr bc1 rsqrt s).backward_ran = false
    ∧ (sub_loss_update loss lossGrad 0 beta2 lr bc1 rsqrt s).reported = loss
    ∧ (sub_loss_update loss lossGrad 0 beta2 lr bc1 rsqrt s).opt_step_ran = true := by
  simp only [sub_loss_update, adam_param_step, hguard, if_true, Bool.not_true]
  refine ⟨by ring, by trivial, by trivial, by trivial, by trivial⟩

/-- C1 witness: a concrete `inf` loss at a parameter with nonzero moment
buffers: the parameter value 3 is unchanged, the gradient stays zero, the
loss is reported, backward is skipped and the optimizer step still runs. -/
theorem C1_guard_skips_backward_only_witness :
    skip_guard .posInf = true
    ∧ (sub_loss_update .posInf 7 0 (99 / 100) (1 / 1000) 1 (1 / 2) ⟨3, 2, 4⟩).param.p = 3
    ∧ (sub_loss_update .posInf 7 0 (99 / 100) (1 / 1000) 1 (1 / 2) ⟨3, 2, 4⟩).grad = 0
    ∧ (sub_loss_update .posInf 7 0 (99 / 100) (1 / 1000) 1 (1 / 2) ⟨3, 2, 4⟩).backward_ran
        = false
    ∧ (sub_loss_update .posInf 7 0 (99 / 100) (1 / 1000) 1 (1 / 2) ⟨3, 2, 4⟩).opt_step_ran
        = true := by
  have h := C1_guard_skips_backward_only .posInf 7 (99 / 100) (1 / 1000) 1 (1 / 2)
    ⟨3, 2, 4⟩ rfl
  exact ⟨rfl, h.1, h.2.1, h.2.2.1, h.2.2.2.2⟩

/-- C7: in `wgangp` mode the discriminator loss assembled by `backward_D`
equals the spec's formula: the real/fake criterion terms and the drift
penalty `0.001 * mean(pred_real^2)` all scaled by 0.5 (the drift penalty
is added onto `loss_D_real` before the 0.5 scaling), plus the unscaled
gradient penalty `10 * mean((‖∇x̂‖₂ - 1)^2)`; and the interpolated sample
is componentwise `eps * real + (1 - eps) * fake` with the detached fake. -/
theorem C7_wgangp_D_loss (critFake critReal : ℚ) (pred_real grad_norms : List ℚ)
    (eps real fake : ℚ) :
    backward_D_loss_wgangp critFake critReal pred_real grad_norms
        = spec_D_loss_wgangp critFake critReal pred_real grad_norms
    ∧ x_hat eps real fake = eps * real + (1 - eps) * fake := by
  constructor
  · simp only [backward_D_loss_wgangp, spec_D_loss_wgangp]
    ring
  · rfl

/-- C8 counterexample: an eval-mode configuration (`isTrain = false`) with
`crop_size = 8 ≠ 4 * 2^6` and `beta1 = 1 ≠ 0` for which construction does
not fail: the asserts of lines 59-61 and 123-125 are guarded by
`if self.isTrain`, so the claim that construction fails for every
configuration violating these conditions is false. -/
theorem C8_counterexample :
    (8 : ℕ) ≠ 4 * 2 ^ 6
    ∧ (1 : ℚ) ≠ 0
    ∧ init_checks ⟨false, 8, 1, 6, 20, 0, "linear"⟩
        = .ok (create_epochs_schedule "linear" 6 21) := by
  refine ⟨by norm_num, by norm_num, ?_⟩
  norm_num [init_checks, ProGanOpt.total_steps]

/-- C8 corrected: in training mode (`isTrain`), construction fails with an
`AssertionError` whenever the configured image size differs from
`4 * 2^max_steps` (checked first) or `beta1` is nonzero (checked second),
and when both conditions hold construction gets past these two checks
(any later failure can only be one of the two budget checks); in eval
mode the checks are skipped entirely (see the counterexample). -/
theorem C8_train_construction_checks (o : ProGanOpt) (ht : o.isTrain = true) :
    (o.crop_size ≠ 4 * 2 ^ o.max_steps → init_checks o = .error .sizeMismatch)
    ∧ (o.crop_size = 4 * 2 ^ o.max_steps → o.beta1 ≠ 0 →
        init_checks o = .error .betaNonzero)
    ∧ (o.crop_size = 4 * 2 ^ o.max_steps → o.beta1 = 0 →
        init_checks o ≠ .error .sizeMismatch
          ∧ init_checks o ≠ .error .betaNonzero) := by
  refine ⟨fun hc => ?_, fun hc hb => ?_, fun hc hb => ?_⟩
  · simp only [init_checks, ht]
    rw [if_pos ⟨trivial, hc⟩]
  · simp only [init_checks, ht]
    rw [if_neg (by simp [hc]), if_pos ⟨trivial, hb⟩]
  · simp only [init_checks, ht]
    rw [if_neg (by simp [hc]), if_neg (by simp [hb])]
    split_ifs <;> simp

/-- C8 witness: a training configuration with mismatched image size
(`crop_size = 8` with `max_steps = 6`) fails on the size check, and one
with `crop_size = 256`, `beta1 = 0` gets past both checks. -/
theorem C8_train_construction_checks_witness :
    init_checks ⟨true, 8, 0, 6, 20, 0, "linear"⟩ = .error .sizeMismatch
    ∧ init_checks ⟨true, 256, 0, 6, 20, 0, "linear"⟩ ≠ .error .sizeMismatch
    ∧ init_checks ⟨true, 256, 0, 6, 20, 0, "linear"⟩ ≠ .error .betaNonzero := by
  refine ⟨(C8_train_construction_checks ⟨true, 8, 0, 6, 20, 0, "linear"⟩ rfl).1
    (by norm_num), ?_, ?_⟩
  · exact ((C8_train_construction_checks ⟨true, 256, 0, 6, 20, 0, "linear"⟩ rfl).2.2
      (by norm_num) rfl).1
  · exact ((C8_train_construction_checks ⟨true, 256, 0, 6, 20, 0, "linear"⟩ rfl).2.2
      (by norm_num) rfl).2

/-- C10: in evaluation mode (`isTrain = false`) `forward` generates the
synthetic sample at `step = max_steps` with `alpha = 1` regardless of the
internal counters, while `set_input` downsamples the real sample using
the internal counters, which start (and without any advance remain) at
`step = 0`, `alpha = 0`; consequently, for the documented size relation
`crop_size = 4 * 2^max_steps` and any `max_steps ≥ 1`, the real visual
(side `crop_size / 2^max_steps = 4`) and the synthetic visual (side
`4 * 2^max_steps`) have different spatial resolutions. -/
theorem C10_eval_resolution_mismatch (m crop : ℕ) (hm : 1 ≤ m)
    (hcrop : crop = 4 * 2 ^ m) :
    (∀ s : SchedState, forward_step false m s = m ∧ forward_alpha false s = 1)
    ∧ initState.step = 0 ∧ initState.alpha = 0
    ∧ progressive_downsampling_side m crop initState.step
        ≠ generator_sample_side (forward_step false m initState) := by
  refine ⟨fun s => ⟨rfl, rfl⟩, rfl, rfl, ?_⟩
  have h4 : progressive_downsampling_side m crop initState.step = 4 := by
    simp only [progressive_downsampling_side, initState, hcrop, Nat.sub_zero]
    exact Nat.mul_div_cancel 4 (Nat.pos_pow_of_pos m (by norm_num))
  rw [h4]
  simp only [generator_sample_side, forward_step, Bool.false_eq_true, if_false]
  have h2 : (2 : ℕ) ≤ 2 ^ m := by
    calc (2 : ℕ) = 2 ^ 1 := by norm_num
      _ ≤ 2 ^ m := Nat.pow_le_pow_right (by norm_num) hm
  omega

/-- C10 witness: the default configuration `max_steps = 6`,
`crop_size = 256`: in eval mode the real visual has side 4 while the
synthetic visual has side 256. -/
theorem C10_eval_resolution_mismatch_witness :
    progressive_downsampling_side 6 256 initState.step
      ≠ generator_sample_side (forward_step false 6 initState) := by
  exact (C10_eval_resolution_mismatch 6 256 (by norm_num) (by norm_num)).2.2.2
